import Mathlib

/-
Shallow embedding of the camera capture core of `usb-camera-server`
(`src/camera.py`, configuration dataclass from `src/config.py`).

The Python object `CameraManager` is modelled as an explicit record of its
mutable attributes; each method becomes a state-passing function.  Outcomes of
external calls (device-path existence, `cv2.VideoCapture` opening, `cap.read()`
results, exceptions raised by the driver) are supplied as explicit inputs, so
every function is deterministic and executable.
-/

/-- Mirror of the `CameraConfig` dataclass in `config.py`: plain data, carrying
the defaults from the source and no validation whatsoever (any `int` is
accepted for every numeric field). -/
structure CameraConfig where
  device_index : Int := 0
  width : Int := 640
  height : Int := 480
  fps : Int := 30
  buffer_size : Int := 2
  jpeg_quality : Int := 80
  auto_reconnect : Bool := true
  reconnect_interval : Int := 5
  max_reconnect_attempts : Int := 10
deriving Repr, DecidableEq

/-- Outcome of the external calls made by `CameraManager._initialize_camera`:
the configured device path does not exist (`os.path.exists` fails), the
`VideoCapture` object is created but `isOpened()` is false, the open succeeds,
or the driver raises an exception. -/
inductive InitOutcome where
  | pathMissing
  | openFailed
  | openOk
  | exn
deriving Repr, DecidableEq

/-- The mutable attribute state of a `CameraManager` object (`camera.py`).
`cap` is `none` when the Python attribute is `None` and `some b` when it holds
a `VideoCapture` object whose `isOpened()` returns `b`.  `frame_queue` lists
the queued `(frame, timestamp)` records, oldest first.  `threads_spawned`
counts the `Thread(...)` creations performed by `start`, so that "exactly one
worker" statements can be expressed. -/
structure CameraManager (α : Type) where
  is_running : Bool := false
  is_connected : Bool := false
  cap : Option Bool := none
  threads_spawned : Nat := 0
  frame_queue : List (α × Nat) := []
  last_frame_time : Nat := 0
  reconnect_attempts : Nat := 0
  frames_captured : Nat := 0
  frames_dropped : Nat := 0
  connection_errors : Nat := 0
  last_reconnect : Option Nat := none
deriving Repr, DecidableEq

variable {α : Type}

/-- The state built by `CameraManager.__init__`: not running, not connected,
no device handle, empty queue, all counters zero. -/
def initState : CameraManager α := {}

/-- CPython `queue.Queue.full()`: true iff `0 < maxsize ≤ qsize()`.  A
nonpositive `maxsize` (as produced by `queue.Queue(maxsize=config.buffer_size)`
with `buffer_size ≤ 0`) means the queue is unbounded and never full. -/
def queueFull (maxsize : Int) (q : List (α × Nat)) : Prop :=
  0 < maxsize ∧ maxsize ≤ (q.length : Int)

instance (maxsize : Int) (q : List (α × Nat)) : Decidable (queueFull maxsize q) :=
  inferInstanceAs (Decidable (0 < maxsize ∧ maxsize ≤ (q.length : Int)))

/-- `CameraManager._process_frame`: record the capture time, bump
`frames_captured`, evict the oldest entry (bumping `frames_dropped`) when the
queue is full, then `put_nowait` the new `(frame, now)` record; a `queue.Full`
at that point bumps `frames_dropped` instead of inserting. -/
def process_frame (cfg : CameraConfig) (frame : α) (now : Nat)
    (s : CameraManager α) : CameraManager α :=
  let s1 := { s with last_frame_time := now, frames_captured := s.frames_captured + 1 }
  let s2 :=
    if queueFull cfg.buffer_size s1.frame_queue then
      match s1.frame_queue with
      | [] => s1
      | _ :: rest =>
        { s1 with frame_queue := rest, frames_dropped := s1.frames_dropped + 1 }
    else s1
  if queueFull cfg.buffer_size s2.frame_queue then
    { s2 with frames_dropped := s2.frames_dropped + 1 }
  else
    { s2 with frame_queue := s2.frame_queue ++ [(frame, now)] }

/-- `CameraManager.get_frame`: `frame_queue.get(timeout=1.0)` hands out the
oldest queued record when one is present; in this sequential model a queue that
stays empty yields the `queue.Empty` timeout path, i.e. `none`. -/
def get_frame (s : CameraManager α) : Option (α × Nat) × CameraManager α :=
  match s.frame_queue with
  | [] => (none, s)
  | x :: rest => (some x, { s with frame_queue := rest })

/-- `CameraManager._initialize_camera` under outcome `o`.  On a missing device
path nothing changes; a failed open still stores the (unopened) `VideoCapture`
object in `cap`; a successful open stores the opened handle, sets
`is_connected` and zeroes `reconnect_attempts`; an exception bumps
`connection_errors`. -/
def initialize_camera (o : InitOutcome) (s : CameraManager α) :
    Bool × CameraManager α :=
  match o with
  | .pathMissing => (false, s)
  | .openFailed => (false, { s with cap := some false })
  | .openOk =>
    (true, { s with cap := some true, is_connected := true, reconnect_attempts := 0 })
  | .exn => (false, { s with connection_errors := s.connection_errors + 1 })

/-- `CameraManager.start`: no-op returning `True` when already running;
otherwise initialize the camera and, on success, set `is_running` and spawn the
capture thread. -/
def start (o : InitOutcome) (s : CameraManager α) : Bool × CameraManager α :=
  if s.is_running then (true, s)
  else
    match initialize_camera o s with
    | (true, s1) =>
      (true, { s1 with is_running := true, threads_spawned := s1.threads_spawned + 1 })
    | (false, s1) => (false, s1)

/-- `CameraManager.stop`: early return when not running; otherwise clear the
running and connected flags, release the handle (any release error is caught,
and the `finally` block nulls `cap` regardless), and drain the queue.  The
function is total: `stop` never raises. -/
def stop (s : CameraManager α) : CameraManager α :=
  if s.is_running then
    { s with is_running := false, is_connected := false, cap := none, frame_queue := [] }
  else s

/-- `CameraManager._capture_frame`: returns the `ret` flag of `cap.read()` —
`False` when `cap` is `None` or not opened, otherwise the read outcome supplied
by the environment. -/
def capture_frame (readOk : Bool) (s : CameraManager α) : Bool :=
  match s.cap with
  | some true => readOk
  | _ => false

/-- `CameraManager._handle_capture_failure`: clear `is_connected`, bump
`connection_errors`, release and null the handle. -/
def handle_capture_failure (s : CameraManager α) : CameraManager α :=
  { s with is_connected := false, connection_errors := s.connection_errors + 1, cap := none }

/-- `CameraManager._attempt_reconnect`: when `reconnect_attempts` has reached
`max_reconnect_attempts`, clear `is_running` and return; otherwise bump the
attempt counter, sleep, and try `_initialize_camera`, stamping
`last_reconnect` on success. -/
def attempt_reconnect (cfg : CameraConfig) (o : InitOutcome) (now : Nat)
    (s : CameraManager α) : CameraManager α :=
  if cfg.max_reconnect_attempts ≤ (s.reconnect_attempts : Int) then
    { s with is_running := false }
  else
    match initialize_camera o { s with reconnect_attempts := s.reconnect_attempts + 1 } with
    | (true, s2) => { s2 with last_reconnect := some now }
    | (false, s2) => s2

/-- The external inputs consumed by one iteration of `_capture_loop`:
whether the body raises an unexpected exception, the outcome of any
`_initialize_camera` call, the `cap.read()` result, the frame delivered, and
the current time. -/
structure IterEnv (α : Type) where
  unexpected : Bool := false
  initOutcome : InitOutcome := .openFailed
  readOk : Bool := false
  frame : α
  now : Nat := 0
deriving Repr

/-- One iteration of the body of `CameraManager._capture_loop` (the part inside
`while self.is_running.is_set()`).  The returned flag is `true` when the body
executes `break` (disconnected with `auto_reconnect` disabled).  An unexpected
exception is caught, clears `is_connected` and sleeps. -/
def loop_iter (cfg : CameraConfig) (e : IterEnv α) (s : CameraManager α) :
    CameraManager α × Bool :=
  if e.unexpected then ({ s with is_connected := false }, false)
  else if s.is_connected then
    if capture_frame e.readOk s then (process_frame cfg e.frame e.now s, false)
    else (handle_capture_failure s, false)
  else
    if cfg.auto_reconnect then (attempt_reconnect cfg e.initOutcome e.now s, false)
    else (s, true)

/-- `CameraManager._capture_loop`, fuelled: while `is_running` is set, run one
iteration with the environment for iteration index `i`; stop on `break` or
when the flag is cleared.  `fuel` bounds the number of iterations so the model
stays executable; lemmas below quantify over all sufficient fuel. -/
def capture_loop (cfg : CameraConfig) (env : Nat → IterEnv α) :
    Nat → Nat → CameraManager α → CameraManager α
  | 0, _, s => s
  | fuel + 1, i, s =>
    if s.is_running then
      if (loop_iter cfg (env i) s).2 then (loop_iter cfg (env i) s).1
      else capture_loop cfg env fuel (i + 1) (loop_iter cfg (env i) s).1
    else s

/-- An abstract operation on the frame queue, for stating FIFO properties over
arbitrary interleavings of `_process_frame` pushes and `get_frame` pops. -/
inductive QOp (α : Type) where
  | push (frame : α) (now : Nat)
  | pop
deriving Repr

/-- Run a sequence of queue operations, collecting every record handed out by
`get_frame` in order. -/
def run_qops (cfg : CameraConfig) :
    List (QOp α) → CameraManager α → CameraManager α × List (α × Nat)
  | [], s => (s, [])
  | QOp.push f t :: rest, s => run_qops cfg rest (process_frame cfg f t s)
  | QOp.pop :: rest, s =>
    let r := (get_frame s).1
    let s1 := (get_frame s).2
    let p := run_qops cfg rest s1
    (p.1, r.toList ++ p.2)

/-- The records pushed by a sequence of queue operations, in push order. -/
def pushed_of : List (QOp α) → List (α × Nat)
  | [] => []
  | QOp.push f t :: rest => (f, t) :: pushed_of rest
  | QOp.pop :: rest => pushed_of rest

/-- Push a whole list of `(frame, time)` records through `_process_frame`. -/
def push_all (cfg : CameraConfig) :
    List (α × Nat) → CameraManager α → CameraManager α
  | [], s => s
  | (f, t) :: rest, s => push_all cfg rest (process_frame cfg f t s)

/-- Pointwise order on the three monotone Stats counters of `self.stats`. -/
def stats_le (s t : CameraManager α) : Prop :=
  s.frames_captured ≤ t.frames_captured ∧
    s.frames_dropped ≤ t.frames_dropped ∧
    s.connection_errors ≤ t.connection_errors

/-- The reconnect-counter bound: `reconnect_attempts` does not exceed the
configured maximum. -/
def reconnect_inv (cfg : CameraConfig) (s : CameraManager α) : Prop :=
  (s.reconnect_attempts : Int) ≤ cfg.max_reconnect_attempts

instance (cfg : CameraConfig) (s : CameraManager α) : Decidable (reconnect_inv cfg s) :=
  inferInstanceAs (Decidable ((s.reconnect_attempts : Int) ≤ cfg.max_reconnect_attempts))

/-- A configuration with the default buffer capacity 2 (`CameraConfig.buffer_size`). -/
def cfg2 : CameraConfig := { buffer_size := 2 }

/-- A configuration with `buffer_size = 0`, which `CameraConfig` accepts without
validation; `queue.Queue(maxsize=0)` is then unbounded. -/
def cfg0 : CameraConfig := { buffer_size := 0 }

/-- A configuration with `max_reconnect_attempts = 3` (defaults otherwise). -/
def cfgR : CameraConfig := { max_reconnect_attempts := 3 }

/-- An environment in which every `cap.read()` fails and every reopen attempt
fails (`isOpened()` false). -/
def envR : Nat → IterEnv Nat := fun _ => { frame := 0 }

/-- The manager state right after a successful `start` on a fresh instance. -/
def sRunR : CameraManager Nat := (start .openOk initState).2

/-- An environment whose first iteration captures frame `7` at time `5`, after
which every read and every reopen attempt fails. -/
def env4 : Nat → IterEnv Nat := fun i =>
  if i = 0 then { readOk := true, frame := 7, now := 5 } else { frame := 0 }

/-- A reachable state in which the worker captured one frame and then exhausted
its reconnect attempts: the loop has ended with `(7, 5)` still buffered. -/
def sEx : CameraManager Nat := capture_loop cfgR env4 7 0 sRunR

/-- The manager state after a `start` whose device open failed: `start`
returned `False`, `is_running` is clear, and `cap` holds the unopened
`VideoCapture` object. -/
def sFailStart : CameraManager Nat := (start .openFailed initState).2

/-- A running manager that has captured one frame (stats counter at 1). -/
def sCap : CameraManager Nat :=
  process_frame cfg2 5 3 (start (α := Nat) .openOk initState).2

/-- `sCap` after a `stop` followed by a fresh successful `start` (a restart). -/
def sRestart : CameraManager Nat := (start .openOk (stop sCap)).2

/-- A manager whose queue holds exactly 2 records, i.e. is full at capacity 2. -/
def sFull : CameraManager Nat := { frame_queue := [(9, 1), (8, 2)] }

/-- `queue.Queue.full()` never holds of an empty queue, whatever `maxsize`. -/
lemma queueFull_nil (m : Int) : ¬ queueFull m ([] : List (α × Nat)) := by
  simp [queueFull]

/-- `_process_frame` on an empty queue records the frame and appends it. -/
lemma process_frame_nil (cfg : CameraConfig) (f : α) (t : Nat) (s : CameraManager α)
    (hq : s.frame_queue = []) :
    process_frame cfg f t s =
      { s with last_frame_time := t, frames_captured := s.frames_captured + 1,
               frame_queue := [(f, t)] } := by
  unfold process_frame
  simp [hq, queueFull_nil]

/-- Case analysis of `_process_frame` on a nonempty queue: when full, the
oldest entry is evicted with a drop; if the queue somehow remains full,
`put_nowait` raises `queue.Full` and a second drop is counted instead of
inserting; otherwise the new record is appended. -/
lemma process_frame_cons (cfg : CameraConfig) (f : α) (t : Nat) (s : CameraManager α)
    (x : α × Nat) (q : List (α × Nat)) (hq : s.frame_queue = x :: q) :
    process_frame cfg f t s =
      if queueFull cfg.buffer_size (x :: q) then
        (if queueFull cfg.buffer_size q then
          { s with last_frame_time := t, frames_captured := s.frames_captured + 1,
                   frame_queue := q, frames_dropped := s.frames_dropped + 1 + 1 }
        else
          { s with last_frame_time := t, frames_captured := s.frames_captured + 1,
                   frame_queue := q ++ [(f, t)], frames_dropped := s.frames_dropped + 1 })
      else
        { s with last_frame_time := t, frames_captured := s.frames_captured + 1,
                 frame_queue := (x :: q) ++ [(f, t)] } := by
  by_cases h1 : queueFull cfg.buffer_size (x :: q)
  · by_cases h2 : queueFull cfg.buffer_size q
    · simp [process_frame, hq, h1, h2]
    · simp [process_frame, hq, h1, h2]
  · simp [process_frame, hq, h1]

/-- One `_process_frame` keeps the queue length within a positive capacity. -/
lemma process_frame_length_le (cfg : CameraConfig) (f : α) (t : Nat)
    (s : CameraManager α) (hN : 0 < cfg.buffer_size)
    (h : (s.frame_queue.length : Int) ≤ cfg.buffer_size) :
    ((process_frame cfg f t s).frame_queue.length : Int) ≤ cfg.buffer_size := by
  rcases hq : s.frame_queue with _ | ⟨x, q⟩
  · rw [process_frame_nil cfg f t s hq]
    simpa using hN
  · rw [hq] at h
    rw [process_frame_cons cfg f t s x q hq]
    by_cases h1 : queueFull cfg.buffer_size (x :: q)
    · by_cases h2 : queueFull cfg.buffer_size q
      · simp only [h1, h2, if_true]
        simp only [queueFull, List.length_cons] at h2 ⊢
        simp only [List.length_cons] at h
        omega
      · simp only [h1, h2, if_true, if_false]
        simp only [queueFull, List.length_cons, List.length_append, List.length_cons,
          List.length_nil, not_and, not_le] at h2 ⊢
        simp only [List.length_cons] at h
        omega
    · simp only [h1, if_false]
      simp only [queueFull, List.length_cons, not_and, not_le] at h1
      simp only [List.length_cons, List.length_append, List.length_cons, List.length_nil]
      simp only [List.length_cons] at h
      omega

/-- Pushing any list of frames keeps the queue length within a positive
capacity. -/
lemma push_all_length_le (cfg : CameraConfig) (hN : 0 < cfg.buffer_size) :
    ∀ (l : List (α × Nat)) (s : CameraManager α),
      (s.frame_queue.length : Int) ≤ cfg.buffer_size →
      ((push_all cfg l s).frame_queue.length : Int) ≤ cfg.buffer_size
  | [], _, h => h
  | (f, t) :: rest, s, h =>
    push_all_length_le cfg hN rest _ (process_frame_length_le cfg f t s hN h)

/-- Claim C1 (amended): for every sequence of push operations starting from a
fresh manager, the Frame Buffer length never exceeds the configured capacity
`buffer_size`, provided the capacity is at least 1.  (For `buffer_size ≤ 0`
the underlying `queue.Queue` is unbounded; see the counterexample.) -/
theorem buffer_length_le_capacity (cfg : CameraConfig) (l : List (α × Nat))
    (hN : 0 < cfg.buffer_size) :
    ((push_all cfg l (initState : CameraManager α)).frame_queue.length : Int) ≤
      cfg.buffer_size :=
  push_all_length_le cfg hN l initState (by simp [initState]; omega)

/-- Witness for `buffer_length_le_capacity` at capacity 2 and three pushes. -/
theorem buffer_length_le_capacity_witness :
    (0 : Int) < cfg2.buffer_size ∧
      ((push_all cfg2 [((5 : Nat), 0), (6, 1), (7, 2)]
          (initState : CameraManager Nat)).frame_queue.length : Int) ≤ cfg2.buffer_size :=
  ⟨by decide, buffer_length_le_capacity cfg2 [(5, 0), (6, 1), (7, 2)] (by decide)⟩

/-- Claim C1, counterexample: `CameraConfig` permits `buffer_size = 0`, and
`queue.Queue(maxsize=0)` is unbounded, so a single push already makes the
buffer length exceed the configured capacity 0. -/
theorem buffer_exceeds_capacity_at_zero :
    ¬ (((push_all cfg0 [((5 : Nat), 0)]
        (initState : CameraManager Nat)).frame_queue.length : Int) ≤ cfg0.buffer_size) := by
  decide

/-- Claim C2: with capacity 2, pushing frames A, B, C (here `0, 1, 2` at times
`10, 11, 12`) leaves the buffer holding exactly `[B, C]` with one drop; and in
general a push into a full buffer of capacity `N ≥ 1` increments
`frames_dropped` by exactly one and leaves the `N` most recently pushed frames
(the previous queue minus its oldest entry, plus the new record). -/
theorem push_full_drops_oldest (cfg : CameraConfig) (s : CameraManager α)
    (f : α) (t : Nat) (hN : 0 < cfg.buffer_size)
    (hlen : (s.frame_queue.length : Int) = cfg.buffer_size) :
    ((push_all cfg2 [((0 : Nat), 10), (1, 11), (2, 12)]
        (initState : CameraManager Nat)).frame_queue = [(1, 11), (2, 12)] ∧
      (push_all cfg2 [((0 : Nat), 10), (1, 11), (2, 12)]
        (initState : CameraManager Nat)).frames_dropped = 1) ∧
    (process_frame cfg f t s).frames_dropped = s.frames_dropped + 1 ∧
    (process_frame cfg f t s).frame_queue = s.frame_queue.tail ++ [(f, t)] ∧
    ((process_frame cfg f t s).frame_queue.length : Int) = cfg.buffer_size := by
  refine ⟨⟨by decide, by decide⟩, ?_⟩
  rcases hq : s.frame_queue with _ | ⟨x, q⟩
  · rw [hq] at hlen
    simp at hlen
    omega
  · rw [hq] at hlen
    simp only [List.length_cons] at hlen
    have h1 : queueFull cfg.buffer_size (x :: q) :=
      ⟨hN, by simp only [List.length_cons]; omega⟩
    have h2 : ¬ queueFull cfg.buffer_size q := by
      rintro ⟨-, hle⟩
      omega
    rw [process_frame_cons cfg f t s x q hq, if_pos h1, if_neg h2]
    refine ⟨rfl, by simp [hq], ?_⟩
    simp only [List.length_append, List.length_cons, List.length_nil]
    omega

/-- Witness for `push_full_drops_oldest` on the concrete full buffer `sFull`. -/
theorem push_full_drops_oldest_witness :
    ((0 : Int) < cfg2.buffer_size ∧ ((sFull.frame_queue.length : Int) = cfg2.buffer_size)) ∧
      (process_frame cfg2 3 7 sFull).frames_dropped = sFull.frames_dropped + 1 ∧
      (process_frame cfg2 3 7 sFull).frame_queue = sFull.frame_queue.tail ++ [(3, 7)] ∧
      ((process_frame cfg2 3 7 sFull).frame_queue.length : Int) = cfg2.buffer_size :=
  ⟨⟨by decide, by decide⟩,
    (push_full_drops_oldest cfg2 sFull 3 7 (by decide) (by decide)).2⟩

/-- A capture loop started on a non-running state does nothing. -/
lemma capture_loop_stopped (cfg : CameraConfig) (env : Nat → IterEnv α)
    (fuel i : Nat) (s : CameraManager α) (h : s.is_running = false) :
    capture_loop cfg env fuel i s = s := by
  cases fuel <;> simp [capture_loop, h]

/-- Once the loop has reached a non-running state within `fuel` iterations,
giving it more fuel changes nothing: the loop has genuinely terminated. -/
lemma capture_loop_add (cfg : CameraConfig) (env : Nat → IterEnv α) (n : Nat) :
    ∀ (fuel i : Nat) (s : CameraManager α),
      (capture_loop cfg env fuel i s).is_running = false →
      capture_loop cfg env (fuel + n) i s = capture_loop cfg env fuel i s := by
  intro fuel
  induction fuel with
  | zero =>
    intro i s h
    simp only [capture_loop] at h
    rw [Nat.zero_add, capture_loop_stopped cfg env n i s h]
    rfl
  | succ fuel ih =>
    intro i s h
    rw [show fuel + 1 + n = (fuel + n) + 1 by omega]
    by_cases hr : s.is_running
    · simp only [capture_loop] at h ⊢
      rw [if_pos hr] at h
      rw [if_pos hr, if_pos hr]
      by_cases hb : (loop_iter cfg (env i) s).2
      · rw [if_pos hb] at h
        rw [if_pos hb, if_pos hb]
      · rw [if_neg hb] at h
        rw [if_neg hb, if_neg hb]
        exact ih (i + 1) _ h
    · simp only [capture_loop] at h ⊢
      rw [if_neg hr] at h
      rw [if_neg hr, if_neg hr]

/-- Claim C3: with `max_reconnect_attempts = 3` and `auto_reconnect` on, when
the device is lost and every reopen attempt fails, the loop performs exactly 3
failed reconnect attempts, then clears `is_running` and terminates: for any
amount of extra fuel the state is the one reached after 5 iterations (one
failed read plus 3 failed reconnects plus the exhaustion check), with
`is_running = false` and `reconnect_attempts = 3`. -/
theorem reconnect_exhaustion_stops_worker (n : Nat) :
    (capture_loop cfgR envR (5 + n) 0 sRunR).is_running = false ∧
    (capture_loop cfgR envR (5 + n) 0 sRunR).reconnect_attempts = 3 ∧
    capture_loop cfgR envR (5 + n) 0 sRunR = capture_loop cfgR envR 5 0 sRunR := by
  have h5 : (capture_loop cfgR envR 5 0 sRunR).is_running = false := by decide
  have hadd := capture_loop_add cfgR envR n 5 0 sRunR h5
  rw [Nat.add_comm 5 n] at hadd ⊢
  rw [hadd]
  exact ⟨h5, by decide, rfl⟩

/-- Witness for `reconnect_exhaustion_stops_worker` with 2 units of extra fuel. -/
theorem reconnect_exhaustion_stops_worker_witness :
    (capture_loop cfgR envR 7 0 sRunR).is_running = false ∧
    (capture_loop cfgR envR 7 0 sRunR).reconnect_attempts = 3 ∧
    capture_loop cfgR envR 7 0 sRunR = capture_loop cfgR envR 5 0 sRunR :=
  reconnect_exhaustion_stops_worker 2

/-- Claim C4, counterexample: after reconnect exhaustion (`sEx` is reachable:
one frame captured, then the device lost and 3 reconnects failed), `get_frame`
does not return `none` — the frame buffered before exhaustion is still handed
out, because nothing clears the queue when the loop ends. -/
theorem exhausted_get_frame_returns_stale :
    sEx.is_running = false ∧ sEx.reconnect_attempts = 3 ∧
    (get_frame sEx).1 = some (7, 5) ∧ (get_frame sEx).1 ≠ none := by
  refine ⟨by decide, by decide, by decide, by decide⟩

/-- Claim C4 (amended): when reconnect attempts are exhausted the worker stops
(`is_running` cleared) but the frame queue is left untouched; subsequent
`get_frame` calls return the frames already buffered, oldest first, and return
`none` only once the buffer is empty. -/
theorem get_frame_after_exhaustion (cfg : CameraConfig) (o : InitOutcome) (t : Nat)
    (s : CameraManager α)
    (hmax : cfg.max_reconnect_attempts ≤ (s.reconnect_attempts : Int)) :
    (attempt_reconnect cfg o t s).is_running = false ∧
    (attempt_reconnect cfg o t s).frame_queue = s.frame_queue ∧
    (s.frame_queue = [] → (get_frame s).1 = none) ∧
    (∀ (x : α × Nat) (q : List (α × Nat)),
      s.frame_queue = x :: q → (get_frame s).1 = some x) := by
  refine ⟨?_, ?_, ?_, ?_⟩
  · unfold attempt_reconnect; rw [if_pos hmax]
  · unfold attempt_reconnect; rw [if_pos hmax]
  · intro hq; simp [get_frame, hq]
  · intro x q hq; simp [get_frame, hq]

/-- Witness for `get_frame_after_exhaustion` at the reachable exhausted state. -/
theorem get_frame_after_exhaustion_witness :
    cfgR.max_reconnect_attempts ≤ (sEx.reconnect_attempts : Int) ∧
    ((attempt_reconnect cfgR .openFailed 0 sEx).is_running = false ∧
      (attempt_reconnect cfgR .openFailed 0 sEx).frame_queue = sEx.frame_queue ∧
      (sEx.frame_queue = [] → (get_frame sEx).1 = none) ∧
      (∀ (x : Nat × Nat) (q : List (Nat × Nat)),
        sEx.frame_queue = x :: q → (get_frame sEx).1 = some x)) :=
  ⟨by decide, get_frame_after_exhaustion cfgR .openFailed 0 sEx (by decide)⟩

/-- Claim C5, counterexample: after a `start` whose device open failed, the
manager is not running and `cap` holds the unopened `VideoCapture` object;
`stop` then takes its already-stopped early return and leaves `cap` non-null,
contradicting "stop always nulls out the handle reference" for that state. -/
theorem stop_after_failed_start_keeps_handle :
    sFailStart.is_running = false ∧ stop sFailStart = sFailStart ∧
    (stop sFailStart).cap = some false ∧ (stop sFailStart).cap ≠ none := by
  refine ⟨by decide, by decide, by decide, by decide⟩

/-- Claim C5 (amended): `stop` is a total function (release errors are caught
and swallowed, so it never raises).  When the manager is running it nulls the
handle, clears both flags and drains the queue; when the manager is already
stopped it is a no-op that leaves the state — including any non-null handle
left behind by a failed `start` — unchanged. -/
theorem stop_nulls_handle_when_running (s : CameraManager α) :
    (s.is_running = true →
      (stop s).cap = none ∧ (stop s).is_running = false ∧
      (stop s).is_connected = false ∧ (stop s).frame_queue = []) ∧
    (s.is_running = false → stop s = s) := by
  constructor
  · intro h; simp [stop, h]
  · intro h; simp [stop, h]

/-- Witness for `stop_nulls_handle_when_running` on a running manager. -/
theorem stop_nulls_handle_when_running_witness :
    sRunR.is_running = true ∧
    ((stop sRunR).cap = none ∧ (stop sRunR).is_running = false ∧
      (stop sRunR).is_connected = false ∧ (stop sRunR).frame_queue = []) :=
  ⟨by decide, (stop_nulls_handle_when_running sRunR).1 (by decide)⟩

/-- Claim C6, counterexample: a manager that captured one frame is stopped and
started again; after the successful `start` the `frames_captured` counter is
still 1, not the initial value 0 — `start` does not reset the Stats counters. -/
theorem start_does_not_reset_stats :
    (stop sCap).is_running = false ∧ sRestart.is_running = true ∧
    sRestart.frames_captured = 1 ∧ sRestart.frames_captured ≠ 0 := by
  refine ⟨by decide, by decide, by decide, by decide⟩

/-- Claim C6 (amended): a `start` from a stopped state resets only the
ReconnectCounter (to zero, via the successful `_initialize_camera`); the Stats
counters `frames_captured`, `frames_dropped` and the last-reconnect timestamp
are carried over unchanged, and `connection_errors` too unless the open raises
(in which case it increases). -/
theorem start_resets_only_reconnect_counter (s : CameraManager α)
    (h : s.is_running = false) :
    (start .openOk s).1 = true ∧
    (start .openOk s).2.reconnect_attempts = 0 ∧
    (∀ o : InitOutcome,
      (start o s).2.frames_captured = s.frames_captured ∧
      (start o s).2.frames_dropped = s.frames_dropped ∧
      (start o s).2.last_reconnect = s.last_reconnect) ∧
    (∀ o : InitOutcome, o ≠ .exn →
      (start o s).2.connection_errors = s.connection_errors) := by
  refine ⟨?_, ?_, ?_, ?_⟩
  · simp [start, h, initialize_camera]
  · simp [start, h, initialize_camera]
  · intro o; cases o <;> simp [start, h, initialize_camera]
  · intro o ho
    cases o with
    | pathMissing => simp [start, h, initialize_camera]
    | openFailed => simp [start, h, initialize_camera]
    | openOk => simp [start, h, initialize_camera]
    | exn => exact absurd rfl ho

/-- Witness for `start_resets_only_reconnect_counter` across a real restart. -/
theorem start_resets_only_reconnect_counter_witness :
    (stop sCap).is_running = false ∧
    (start .openOk (stop sCap)).1 = true ∧
    (start .openOk (stop sCap)).2.reconnect_attempts = 0 ∧
    (start .openOk (stop sCap)).2.frames_captured = (stop sCap).frames_captured ∧
    (start .openOk (stop sCap)).2.connection_errors = (stop sCap).connection_errors := by
  have H := start_resets_only_reconnect_counter (stop sCap) (by decide)
  exact ⟨by decide, H.1, H.2.1, (H.2.2.1 .openOk).1, H.2.2.2 .openOk (by decide)⟩

/-- `stats_le` is reflexive. -/
lemma stats_le_refl (s : CameraManager α) : stats_le s s :=
  ⟨le_refl _, le_refl _, le_refl _⟩

/-- `stats_le` is transitive. -/
lemma stats_le_trans {s t u : CameraManager α} (h1 : stats_le s t)
    (h2 : stats_le t u) : stats_le s u :=
  ⟨h1.1.trans h2.1, h1.2.1.trans h2.2.1, h1.2.2.trans h2.2.2⟩

/-- `_process_frame` never decreases the Stats counters. -/
lemma stats_le_process_frame (cfg : CameraConfig) (f : α) (t : Nat)
    (s : CameraManager α) : stats_le s (process_frame cfg f t s) := by
  rcases hq : s.frame_queue with _ | ⟨x, q⟩
  · rw [process_frame_nil cfg f t s hq]
    exact ⟨Nat.le_succ _, le_refl _, le_refl _⟩
  · rw [process_frame_cons cfg f t s x q hq]
    split_ifs <;> refine ⟨?_, ?_, ?_⟩ <;> (dsimp only; omega)

/-- `_initialize_camera` never decreases the Stats counters. -/
lemma stats_le_initialize_camera (o : InitOutcome) (s : CameraManager α) :
    stats_le s (initialize_camera o s).2 := by
  cases o <;> refine ⟨?_, ?_, ?_⟩ <;> (dsimp only [initialize_camera]; omega)

/-- `start` never decreases the Stats counters. -/
lemma stats_le_start (o : InitOutcome) (s : CameraManager α) :
    stats_le s (start o s).2 := by
  unfold start
  split_ifs with hr
  · exact stats_le_refl s
  · have h := stats_le_initialize_camera o s
    rcases hini : initialize_camera o s with ⟨b, s1⟩
    rw [hini] at h
    cases b
    · exact h
    · exact h

/-- `stop` never decreases the Stats counters. -/
lemma stats_le_stop (s : CameraManager α) : stats_le s (stop s) := by
  unfold stop
  split_ifs <;> exact ⟨le_refl _, le_refl _, le_refl _⟩

/-- `get_frame` never decreases the Stats counters. -/
lemma stats_le_get_frame (s : CameraManager α) : stats_le s (get_frame s).2 := by
  rcases hq : s.frame_queue with _ | ⟨x, q⟩ <;> simp [get_frame, hq] <;>
    exact ⟨le_refl _, le_refl _, le_refl _⟩

/-- `_handle_capture_failure` never decreases the Stats counters. -/
lemma stats_le_handle_capture_failure (s : CameraManager α) :
    stats_le s (handle_capture_failure s) :=
  ⟨le_refl _, le_refl _, Nat.le_succ _⟩

/-- `_attempt_reconnect` never decreases the Stats counters. -/
lemma stats_le_attempt_reconnect (cfg : CameraConfig) (o : InitOutcome) (t : Nat)
    (s : CameraManager α) : stats_le s (attempt_reconnect cfg o t s) := by
  unfold attempt_reconnect
  split_ifs
  · exact ⟨le_refl _, le_refl _, le_refl _⟩
  · have h := stats_le_initialize_camera o
      { s with reconnect_attempts := s.reconnect_attempts + 1 }
    rcases hini : initialize_camera o
        { s with reconnect_attempts := s.reconnect_attempts + 1 } with ⟨b, s2⟩
    rw [hini] at h
    cases b
    · exact h
    · exact h

/-- One capture-loop iteration never decreases the Stats counters. -/
lemma stats_le_loop_iter (cfg : CameraConfig) (e : IterEnv α) (s : CameraManager α) :
    stats_le s (loop_iter cfg e s).1 := by
  unfold loop_iter
  split_ifs
  · exact ⟨le_refl _, le_refl _, le_refl _⟩
  · exact stats_le_process_frame cfg e.frame e.now s
  · exact stats_le_handle_capture_failure s
  · exact stats_le_attempt_reconnect cfg e.initOutcome e.now s
  · exact stats_le_refl s

/-- The whole capture loop never decreases the Stats counters. -/
lemma stats_le_capture_loop (cfg : CameraConfig) (env : Nat → IterEnv α) :
    ∀ (fuel i : Nat) (s : CameraManager α), stats_le s (capture_loop cfg env fuel i s)
  | 0, _, s => stats_le_refl s
  | fuel + 1, i, s => by
    unfold capture_loop
    split_ifs
    · exact stats_le_loop_iter cfg (env i) s
    · exact stats_le_trans (stats_le_loop_iter cfg (env i) s)
        (stats_le_capture_loop cfg env fuel (i + 1) _)
    · exact stats_le_refl s

/-- Claim C7: the Stats counters `frames_captured`, `frames_dropped` and
`connection_errors` are monotonically non-decreasing under every operation of
the manager — frame processing, camera initialization, `start`, `stop`,
`get_frame`, capture-failure handling, reconnection, a loop iteration, any
fuelled run of the capture loop, and a `stop` followed by `start` (restart). -/
theorem stats_counters_monotone (cfg : CameraConfig) (o : InitOutcome) (f : α)
    (t : Nat) (e : IterEnv α) (env : Nat → IterEnv α) (fuel i : Nat)
    (s : CameraManager α) :
    stats_le s (process_frame cfg f t s) ∧
    stats_le s (initialize_camera o s).2 ∧
    stats_le s (start o s).2 ∧
    stats_le s (stop s) ∧
    stats_le s (get_frame s).2 ∧
    stats_le s (handle_capture_failure s) ∧
    stats_le s (attempt_reconnect cfg o t s) ∧
    stats_le s (loop_iter cfg e s).1 ∧
    stats_le s (capture_loop cfg env fuel i s) ∧
    stats_le s (start o (stop s)).2 :=
  ⟨stats_le_process_frame cfg f t s, stats_le_initialize_camera o s,
    stats_le_start o s, stats_le_stop s, stats_le_get_frame s,
    stats_le_handle_capture_failure s, stats_le_attempt_reconnect cfg o t s,
    stats_le_loop_iter cfg e s, stats_le_capture_loop cfg env fuel i s,
    stats_le_trans (stats_le_stop s) (stats_le_start o (stop s))⟩

/-- Witness for `stats_counters_monotone` at a state with non-zero counters. -/
theorem stats_counters_monotone_witness :
    stats_le sCap (process_frame cfg2 1 4 sCap) ∧
    stats_le sCap (initialize_camera .exn sCap).2 ∧
    stats_le sCap (start .exn sCap).2 ∧
    stats_le sCap (stop sCap) ∧
    stats_le sCap (get_frame sCap).2 ∧
    stats_le sCap (handle_capture_failure sCap) ∧
    stats_le sCap (attempt_reconnect cfg2 .exn 4 sCap) ∧
    stats_le sCap (loop_iter cfg2 { frame := 0 } sCap).1 ∧
    stats_le sCap (capture_loop cfg2 envR 3 0 sCap) ∧
    stats_le sCap (start .exn (stop sCap)).2 :=
  stats_counters_monotone cfg2 .exn 1 4 { frame := 0 } envR 3 0 sCap

/-- One `_process_frame` leaves a queue that is a sublist of the old queue with
the new record appended: the push preserves order and invents nothing. -/
lemma process_frame_queue_sublist (cfg : CameraConfig) (f : α) (t : Nat)
    (s : CameraManager α) :
    (process_frame cfg f t s).frame_queue.Sublist (s.frame_queue ++ [(f, t)]) := by
  rcases hq : s.frame_queue with _ | ⟨x, q⟩
  · rw [process_frame_nil cfg f t s hq]
    simp
  · rw [process_frame_cons cfg f t s x q hq]
    split_ifs
    · exact (List.sublist_cons_self x q).trans (List.sublist_append_left _ _)
    · exact (List.sublist_cons_self x q).append (List.Sublist.refl _)
    · exact List.Sublist.refl _

/-- The records handed out by any push/pop interleaving form a sublist of the
current queue followed by the records still to be pushed. -/
lemma run_qops_sublist (cfg : CameraConfig) :
    ∀ (ops : List (QOp α)) (s : CameraManager α),
      (run_qops cfg ops s).2.Sublist (s.frame_queue ++ pushed_of ops) := by
  intro ops
  induction ops with
  | nil => intro s; simp [run_qops, pushed_of]
  | cons op rest ih =>
    intro s
    cases op with
    | push f t =>
      simp only [run_qops, pushed_of]
      refine (ih _).trans ?_
      have h2 := (process_frame_queue_sublist cfg f t s).append
        (List.Sublist.refl (pushed_of rest))
      simpa [List.append_assoc] using h2
    | pop =>
      rcases hq : s.frame_queue with _ | ⟨x, q⟩
      · simp only [run_qops, pushed_of, get_frame, hq]
        simpa [hq] using ih s
      · simp only [run_qops, pushed_of, get_frame, hq]
        simp only [Option.toList_some, List.cons_append, List.singleton_append]
        exact List.Sublist.cons₂ x (by simpa using ih { s with frame_queue := q })

/-- Claim C8: over every interleaving of pushes and pops starting from a fresh
manager, the sequence of records returned by `get_frame` is a sublist of the
sequence of pushed records — pops come back in push (FIFO) order — and each
record is returned at most as many times as it was pushed, so no record is
ever handed out by more than one pop. -/
theorem get_frame_fifo (cfg : CameraConfig) [DecidableEq α] (ops : List (QOp α)) :
    (run_qops cfg ops (initState : CameraManager α)).2.Sublist (pushed_of ops) ∧
    ∀ r : α × Nat,
      (run_qops cfg ops (initState : CameraManager α)).2.count r ≤
        (pushed_of ops).count r := by
  have h := run_qops_sublist cfg ops (initState : CameraManager α)
  simp only [initState, List.nil_append] at h
  exact ⟨h, fun r => h.count_le r⟩

/-- Witness for `get_frame_fifo` on a concrete push/pop/push interleaving. -/
theorem get_frame_fifo_witness :
    (run_qops cfg2 [QOp.push 4 0, QOp.pop, QOp.push 5 1]
      (initState : CameraManager Nat)).2.Sublist
        (pushed_of [QOp.push 4 0, QOp.pop, QOp.push 5 1]) ∧
    (run_qops cfg2 [QOp.push 4 0, QOp.pop, QOp.push 5 1]
      (initState : CameraManager Nat)).2.count (4, 0) ≤
        (pushed_of [QOp.push (4 : Nat) 0, QOp.pop, QOp.push 5 1]).count (4, 0) :=
  ⟨(get_frame_fifo cfg2 [QOp.push 4 0, QOp.pop, QOp.push 5 1]).1,
    (get_frame_fifo cfg2 [QOp.push 4 0, QOp.pop, QOp.push 5 1]).2 (4, 0)⟩

/-- `start` on a manager that is already running returns `True` and changes
nothing (the already-running early return). -/
lemma start_of_running (o : InitOutcome) (s : CameraManager α)
    (h : s.is_running = true) : start o s = (true, s) := by
  simp [start, h]

/-- Claim C9: `start` while running is an idempotent no-op returning `True`
with the state untouched; consequently, from a stopped state, a successful
`start` spawns exactly one worker thread and returns `True`, and a second
`start` (with any open outcome) returns `True` again while spawning nothing
and changing no state. -/
theorem start_idempotent (o : InitOutcome) (s : CameraManager α) :
    (s.is_running = true → start o s = (true, s)) ∧
    (s.is_running = false →
      (start .openOk s).1 = true ∧
      (start .openOk s).2.threads_spawned = s.threads_spawned + 1 ∧
      start o ((start .openOk s).2) = (true, (start .openOk s).2)) := by
  constructor
  · intro h
    exact start_of_running o s h
  · intro h
    have hrun : (start (α := α) .openOk s).2.is_running = true := by
      simp [start, h, initialize_camera]
    refine ⟨?_, ?_, ?_⟩
    · simp [start, h, initialize_camera]
    · simp [start, h, initialize_camera]
    · exact start_of_running o _ hrun

/-- Witness for `start_idempotent`: two consecutive starts on a fresh manager. -/
theorem start_idempotent_witness :
    (initState : CameraManager Nat).is_running = false ∧
    ((start .openOk (initState : CameraManager Nat)).1 = true ∧
      (start .openOk (initState : CameraManager Nat)).2.threads_spawned =
        (initState : CameraManager Nat).threads_spawned + 1 ∧
      start .openFailed ((start .openOk (initState : CameraManager Nat)).2) =
        (true, (start .openOk (initState : CameraManager Nat)).2)) :=
  ⟨by decide, (start_idempotent .openFailed (initState : CameraManager Nat)).2 (by decide)⟩

/-- `_initialize_camera` preserves the reconnect-counter bound when the
configured maximum is non-negative (a successful open resets the counter to
zero; the other outcomes leave it unchanged). -/
lemma reconnect_inv_initialize_camera (cfg : CameraConfig) (o : InitOutcome)
    (s : CameraManager α) (hmax : 0 ≤ cfg.max_reconnect_attempts)
    (h : reconnect_inv cfg s) : reconnect_inv cfg (initialize_camera o s).2 := by
  cases o <;> simp only [reconnect_inv, initialize_camera] at h ⊢ <;> omega

/-- `_attempt_reconnect` preserves the reconnect-counter bound: it increments
only when the counter is strictly below the maximum. -/
lemma reconnect_inv_attempt_reconnect (cfg : CameraConfig) (o : InitOutcome)
    (t : Nat) (s : CameraManager α) (hmax : 0 ≤ cfg.max_reconnect_attempts)
    (h : reconnect_inv cfg s) :
    reconnect_inv cfg (attempt_reconnect cfg o t s) := by
  unfold attempt_reconnect
  split_ifs with hge
  · exact h
  · have h1 : reconnect_inv cfg
        { s with reconnect_attempts := s.reconnect_attempts + 1 } := by
      simp only [reconnect_inv] at h ⊢
      push_cast
      push_cast at hge
      omega
    have h2 := reconnect_inv_initialize_camera cfg o
      { s with reconnect_attempts := s.reconnect_attempts + 1 } hmax h1
    rcases hini : initialize_camera o
        { s with reconnect_attempts := s.reconnect_attempts + 1 } with ⟨b, s2⟩
    rw [hini] at h2
    cases b
    · exact h2
    · exact h2

/-- `_process_frame` does not touch the reconnect counter. -/
lemma process_frame_reconnect_attempts (cfg : CameraConfig) (f : α) (t : Nat)
    (s : CameraManager α) :
    (process_frame cfg f t s).reconnect_attempts = s.reconnect_attempts := by
  rcases hq : s.frame_queue with _ | ⟨x, q⟩
  · rw [process_frame_nil cfg f t s hq]
  · rw [process_frame_cons cfg f t s x q hq]
    split_ifs <;> rfl

/-- `start` preserves the reconnect-counter bound. -/
lemma reconnect_inv_start (cfg : CameraConfig) (o : InitOutcome)
    (s : CameraManager α) (hmax : 0 ≤ cfg.max_reconnect_attempts)
    (h : reconnect_inv cfg s) : reconnect_inv cfg (start o s).2 := by
  unfold start
  split_ifs
  · exact h
  · have h2 := reconnect_inv_initialize_camera cfg o s hmax h
    rcases hini : initialize_camera o s with ⟨b, s1⟩
    rw [hini] at h2
    cases b
    · exact h2
    · exact h2

/-- `stop` preserves the reconnect-counter bound. -/
lemma reconnect_inv_stop (cfg : CameraConfig) (s : CameraManager α)
    (h : reconnect_inv cfg s) : reconnect_inv cfg (stop s) := by
  unfold stop
  split_ifs
  · exact h
  · exact h

/-- `get_frame` preserves the reconnect-counter bound. -/
lemma reconnect_inv_get_frame (cfg : CameraConfig) (s : CameraManager α)
    (h : reconnect_inv cfg s) : reconnect_inv cfg (get_frame s).2 := by
  unfold get_frame
  rcases hq : s.frame_queue with _ | ⟨x, q⟩
  · exact h
  · exact h

/-- One capture-loop iteration preserves the reconnect-counter bound. -/
lemma reconnect_inv_loop_iter (cfg : CameraConfig) (e : IterEnv α)
    (s : CameraManager α) (hmax : 0 ≤ cfg.max_reconnect_attempts)
    (h : reconnect_inv cfg s) : reconnect_inv cfg (loop_iter cfg e s).1 := by
  unfold loop_iter
  split_ifs
  · exact h
  · have := process_frame_reconnect_attempts cfg e.frame e.now s
    simp only [reconnect_inv, this]
    exact h
  · exact h
  · exact reconnect_inv_attempt_reconnect cfg e.initOutcome e.now s hmax h
  · exact h

/-- Any fuelled run of the capture loop preserves the reconnect-counter bound. -/
lemma reconnect_inv_capture_loop (cfg : CameraConfig) (env : Nat → IterEnv α)
    (hmax : 0 ≤ cfg.max_reconnect_attempts) :
    ∀ (fuel i : Nat) (s : CameraManager α),
      reconnect_inv cfg s → reconnect_inv cfg (capture_loop cfg env fuel i s)
  | 0, _, _, h => h
  | fuel + 1, i, s, h => by
    unfold capture_loop
    split_ifs
    · exact reconnect_inv_loop_iter cfg (env i) s hmax h
    · exact reconnect_inv_capture_loop cfg env hmax fuel (i + 1) _
        (reconnect_inv_loop_iter cfg (env i) s hmax h)
    · exact h

/-- Claim C10: with `max_reconnect_attempts ≥ 0`, the `reconnect_attempts`
counter never exceeds the maximum: it is 0 initially, a successful device
initialization resets it to 0, `_attempt_reconnect` leaves it unchanged once
the maximum is reached (it increments only strictly below the maximum), and
every operation of the manager preserves the bound. -/
theorem reconnect_attempts_bounded (cfg : CameraConfig) (o : InitOutcome) (f : α)
    (t : Nat) (e : IterEnv α) (env : Nat → IterEnv α) (fuel i : Nat)
    (s : CameraManager α) (hmax : 0 ≤ cfg.max_reconnect_attempts)
    (hs : reconnect_inv cfg s) :
    reconnect_inv cfg (initState : CameraManager α) ∧
    (initialize_camera .openOk s).2.reconnect_attempts = 0 ∧
    (cfg.max_reconnect_attempts ≤ (s.reconnect_attempts : Int) →
      (attempt_reconnect cfg o t s).reconnect_attempts = s.reconnect_attempts) ∧
    reconnect_inv cfg (attempt_reconnect cfg o t s) ∧
    reconnect_inv cfg (initialize_camera o s).2 ∧
    reconnect_inv cfg (start o s).2 ∧
    reconnect_inv cfg (stop s) ∧
    reconnect_inv cfg (process_frame cfg f t s) ∧
    reconnect_inv cfg (get_frame s).2 ∧
    reconnect_inv cfg (handle_capture_failure s) ∧
    reconnect_inv cfg (loop_iter cfg e s).1 ∧
    reconnect_inv cfg (capture_loop cfg env fuel i s) := by
  refine ⟨?_, ?_, ?_, ?_, ?_, ?_, ?_, ?_, ?_, ?_, ?_, ?_⟩
  · simp only [reconnect_inv, initState]
    exact_mod_cast hmax
  · rfl
  · intro hge
    unfold attempt_reconnect
    rw [if_pos hge]
  · exact reconnect_inv_attempt_reconnect cfg o t s hmax hs
  · exact reconnect_inv_initialize_camera cfg o s hmax hs
  · exact reconnect_inv_start cfg o s hmax hs
  · exact reconnect_inv_stop cfg s hs
  · simp only [reconnect_inv, process_frame_reconnect_attempts]
    exact hs
  · exact reconnect_inv_get_frame cfg s hs
  · exact hs
  · exact reconnect_inv_loop_iter cfg e s hmax hs
  · exact reconnect_inv_capture_loop cfg env hmax fuel i s hs

/-- Witness for `reconnect_attempts_bounded` at the exhausted state `sEx`,
where the counter sits exactly at the maximum 3. -/
theorem reconnect_attempts_bounded_witness :
    (0 ≤ cfgR.max_reconnect_attempts ∧ reconnect_inv cfgR sEx) ∧
    (reconnect_inv cfgR (initState : CameraManager Nat) ∧
      (initialize_camera .openOk sEx).2.reconnect_attempts = 0 ∧
      (cfgR.max_reconnect_attempts ≤ (sEx.reconnect_attempts : Int) →
        (attempt_reconnect cfgR .openFailed 9 sEx).reconnect_attempts =
          sEx.reconnect_attempts) ∧
      reconnect_inv cfgR (attempt_reconnect cfgR .openFailed 9 sEx) ∧
      reconnect_inv cfgR (initialize_camera .openFailed sEx).2 ∧
      reconnect_inv cfgR (start .openFailed sEx).2 ∧
      reconnect_inv cfgR (stop sEx) ∧
      reconnect_inv cfgR (process_frame cfgR 2 9 sEx) ∧
      reconnect_inv cfgR (get_frame sEx).2 ∧
      reconnect_inv cfgR (handle_capture_failure sEx) ∧
      reconnect_inv cfgR (loop_iter cfgR { frame := (0 : Nat) } sEx).1 ∧
      reconnect_inv cfgR (capture_loop cfgR envR 2 0 sEx)) :=
  ⟨⟨by decide, by decide⟩,
    reconnect_attempts_bounded cfgR .openFailed 2 9 { frame := 0 } envR 2 0 sEx
      (by decide) (by decide)⟩
